import Mathlib

/-!
Shallow embedding of the query-condition compiler and record-lifecycle
protocol of RestOC.Record_MySQL (rest-oc-python).  Python values are
modelled by `Scalar`/`Value` (list members are modelled as scalars: no
claim exercises nested structures), the FormatOC schema node by `Node`,
and the Command Executor by a response oracle `Commands` together with a
trace of issued commands.
-/

namespace RestOC

/-- A scalar Python value as distinguished by the `isinstance` dispatch in
`Record_MySQL`: `None`, `bool`, `int`, `str`, and the `Literal` wrapper
class (which carries its raw SQL text). -/
inductive Scalar where
  | snone
  | sbool (b : Bool)
  | sint (n : Int)
  | sstr (s : String)
  | slit (t : String)
deriving Repr, DecidableEq

/-- A Python value as passed to `escape`/`process_value`: a scalar or a
list/tuple of scalars. -/
inductive Value where
  | vnone
  | vbool (b : Bool)
  | vint (n : Int)
  | vstr (s : String)
  | vlit (t : String)
  | vlist (l : List Scalar)
deriving Repr, DecidableEq

/-- Lift a list member back to a `Value` (list members are scalars). -/
def Scalar.toValue : Scalar → Value
  | .snone => .vnone
  | .sbool b => .vbool b
  | .sint n => .vint n
  | .sstr s => .vstr s
  | .slit t => .vlit t

/-- Python truthiness of a value (`if value:`). -/
def Value.truthy : Value → Bool
  | .vnone => false
  | .vbool b => b
  | .vint n => n != 0
  | .vstr s => s ≠ ""
  | .vlit _ => true
  | .vlist l => !l.isEmpty

/-- Python `==` on scalars: `bool` is an `int` subtype, so `True == 1`
and `False == 0`.  `Literal` defines no `__eq__`; we model it by text
equality (no claim compares literals). -/
def Scalar.pyEq : Scalar → Scalar → Bool
  | .snone, .snone => true
  | .sbool a, .sbool b => a == b
  | .sbool a, .sint b => (if a then (1 : Int) else 0) == b
  | .sint a, .sbool b => a == (if b then (1 : Int) else 0)
  | .sint a, .sint b => a == b
  | .sstr a, .sstr b => a == b
  | .slit a, .slit b => a == b
  | _, _ => false

/-- Python `==` on values. -/
def Value.pyEq : Value → Value → Bool
  | .vlist a, .vlist b =>
    a.length == b.length && (List.zip a b).all (fun p => p.1.pyEq p.2)
  | .vnone, .vnone => true
  | .vbool a, .vbool b => a == b
  | .vbool a, .vint b => (if a then (1 : Int) else 0) == b
  | .vint a, .vbool b => a == (if b then (1 : Int) else 0)
  | .vint a, .vint b => a == b
  | .vstr a, .vstr b => a == b
  | .vlit a, .vlit b => a == b
  | _, _ => false

/-- Python `str()` of a scalar (as used by `%s` formatting). -/
def Scalar.pyStr : Scalar → String
  | .snone => "None"
  | .sbool b => if b then "True" else "False"
  | .sint n => toString n
  | .sstr s => s
  | .slit t => t

/-- Python `repr()` of a scalar, used only for `str()` of a list. -/
def Scalar.pyRepr : Scalar → String
  | .sstr s => "\x27" ++ s ++ "\x27"
  | s => s.pyStr

/-- Python `str()` of a value. -/
def Value.pyStr : Value → String
  | .vlist l => "[" ++ ", ".intercalate (l.map Scalar.pyRepr) ++ "]"
  | .vnone => "None"
  | .vbool b => if b then "True" else "False"
  | .vint n => toString n
  | .vstr s => s
  | .vlit t => t

/-- The exceptions the embedded code can raise. -/
inductive PyErr where
  | valueError (s : String)
  | keyError (s : String)
  | typeError (s : String)
  | indexError (s : String)
  | revisionException (v : Value)
  | runtimeError (s : String)
deriving Repr, DecidableEq

/-- Python `int(value)` stringified (`str(int(value))`). -/
def pyIntStr : Value → Except PyErr String
  | .vint n => .ok (toString n)
  | .vbool b => .ok (if b then "1" else "0")
  | .vstr s =>
    match s.toInt? with
    | some n => .ok (toString n)
    | none => .error (.valueError ("invalid literal for int() with base 10: " ++ s))
  | v => .error (.typeError ("int() argument: " ++ v.pyStr))

/-- Python `str(float(value))`.  Fractional literals are not exercised by
any claim; integral inputs render with a trailing `.0` as Python does. -/
def pyFloatStr : Value → Except PyErr String
  | .vint n => .ok (toString n ++ ".0")
  | .vbool b => .ok (if b then "1.0" else "0.0")
  | .vstr s =>
    match s.toInt? with
    | some n => .ok (toString n ++ ".0")
    | none => .error (.valueError ("could not convert string to float: " ++ s))
  | v => .error (.typeError ("float() argument: " ++ v.pyStr))

/-- Association list standing for a Python `dict` (keys kept in insertion
order, as Python dicts do). -/
def lookupBy {α : Type} : List (String × α) → String → Option α
  | [], _ => none
  | (k, v) :: rest, key => if k = key then some v else lookupBy rest key

/-- `key in d` for an association list. -/
def hasKey {α : Type} (d : List (String × α)) (k : String) : Bool :=
  (lookupBy d k).isSome

/-- `d[key] = v`: replace in place or append (Python dict assignment). -/
def aset {α : Type} : List (String × α) → String → α → List (String × α)
  | [], k, v => [(k, v)]
  | (k0, v0) :: rest, k, v =>
    if k0 = k then (k, v) :: rest else (k0, v0) :: aset rest k v

/-- `del d[key]`. -/
def adel {α : Type} (d : List (String × α)) (k : String) : List (String × α) :=
  d.filter (fun p => p.1 ≠ k)

/-- A record row: field name to value (`self._dRecord`). -/
abbrev Assoc := List (String × Value)

/-- A FormatOC schema node as observed by `Record_MySQL`: the class name
string returned by `className()`, the `type()` string for plain nodes and
the optional special sql dict. -/
structure Node where
  className : String
  type_ : String
  special_sql : Option (List (String × Value)) := none
deriving Repr

/-- One command sent to the Command Executor (trace element). -/
inductive Cmd where
  | execute (host sql : String)
  | insert (host sql : String)
  | selectCell (host sql : String)
deriving Repr, DecidableEq

/-- Response oracle for the Command Executor (external collaborator): what
`Commands.escape/execute/insert/select` would return for a given SQL
string. -/
structure Commands where
  escapeR : String → String → String
  executeR : String → String → Int
  insertR : String → String → Value
  selectR : String → String → Value

/-- `%s` formatting of a possibly-`None` string (Python renders `None`). -/
def fmtOpt : Option String → String
  | some s => s
  | none => "None"

/-- `str + maybeNone`: Python raises `TypeError` when concatenating a
string with `None`. -/
def strOrType : Option String → Except PyErr String
  | some s => .ok s
  | none => .error (.typeError "can only concatenate str (not NoneType) to str")

/-- `,.join(l)` over items that may be `None` (Python raises `TypeError`
at the join if any item is not a string). -/
def joinAll : List (Option String) → Except PyErr (List String)
  | [] => .ok []
  | o :: rest => do
    let s ← strOrType o
    let l ← joinAll rest
    .ok (s :: l)

/-- A simple JSON encoding of a scalar (stands for `JSON.encode`; inner
escaping of quotes is not modelled, no claim exercises it). -/
def Scalar.json : Scalar → String
  | .snone => "null"
  | .sbool b => if b then "true" else "false"
  | .sint n => toString n
  | .sstr s => "\"" ++ s ++ "\""
  | .slit t => t

/-- JSON encoding of a value. -/
def Value.json : Value → String
  | .vlist l => "[" ++ ", ".intercalate (l.map Scalar.json) ++ "]"
  | .vnone => "null"
  | .vbool b => if b then "true" else "false"
  | .vint n => toString n
  | .vstr s => "\"" ++ s ++ "\""
  | .vlit t => t

/-- Record.escape: turns one value into a SQL literal string.  Mirrors the
source dispatch: `Literal` passthrough, then the `None` check, then
class/type dispatch.  The Python function falls off the end (returning
`None`) for a `bool` field given a value that is neither a `bool`, an
`int` equal to 0 or 1, nor a `str` — hence the `Option String` result. -/
def escape (cmds : Commands) (host : String) (node : Node) (value : Value) :
    Except PyErr (Option String) :=
  match value with
  | .vlit t => .ok (some t)
  | .vnone => .ok (some "NULL")
  | _ =>
    if node.className = "Node" then
      let type_ := node.type_
      if type_ = "bool" then
        match value with
        | .vbool b => .ok (some (if b then "1" else "0"))
        | .vint n =>
          if n = 0 ∨ n = 1 then .ok (some (if n == 0 then "0" else "1"))
          else .ok none
        | .vstr s =>
          .ok (some (if ["true", "True", "TRUE", "t", "T", "1"].contains s
            then "1" else "0"))
        | _ => .ok none
      else if ["base64", "date", "datetime", "md5", "time", "uuid", "uuid4"].contains type_ then
        .ok (some ("\x27" ++ value.pyStr ++ "\x27"))
      else if ["decimal", "float", "price"].contains type_ then
        (pyFloatStr value).map some
      else if ["int", "uint"].contains type_ then
        (pyIntStr value).map some
      else if type_ = "timestamp" then
        match value with
        | .vint n => .ok (some ("FROM_UNIXTIME(" ++ toString n ++ ")"))
        | .vbool b => .ok (some ("FROM_UNIXTIME(" ++ (Value.vbool b).pyStr ++ ")"))
        | .vstr s =>
          if s ≠ "" ∧ s.all Char.isDigit then
            .ok (some ("FROM_UNIXTIME(" ++ s ++ ")"))
          else
            .ok (some ("\x27" ++ cmds.escapeR host value.pyStr ++ "\x27"))
        | _ => .error (.typeError "expected string or bytes-like object")
      else
        .ok (some ("\x27" ++ cmds.escapeR host value.pyStr ++ "\x27"))
    else if ["ArrayNode", "HashNode", "Parent"].contains node.className then
      match node.special_sql with
      | some dSQL =>
        if dSQL.isEmpty || !(hasKey dSQL "json") ||
            !(match lookupBy dSQL "json" with
              | some v => v.truthy
              | none => false) then
          .error (.typeError ("Record_MySQL can not process FormatOC " ++
            node.className ++ " nodes without the json flag set"))
        else
          .ok (some ("\x27" ++ cmds.escapeR host value.json ++ "\x27"))
      | none =>
        .error (.typeError ("Record_MySQL can not process FormatOC " ++
          node.className ++ " nodes without the json flag set"))
    else
      .error (.typeError ("Record_MySQL can not process FormatOC " ++
        node.className ++ " nodes"))

/-- The values compiled for one list operand inside `process_value`:
`None` members render as `NULL`, other members are escaped. -/
def listItems (cmds : Commands) (host : String) (node : Node) :
    List Scalar → Except PyErr (List (Option String))
  | [] => .ok []
  | i :: rest => do
    let s ← if i = Scalar.snone then pure (some "NULL")
            else escape cmds host node i.toValue
    let l ← listItems cmds host node rest
    .ok (s :: l)

/-- Python subscripting `value[i]` as used by the `between` branch. -/
def pyIndex : Value → Nat → Except PyErr Value
  | .vlist l, i =>
    match l.get? i with
    | some s => .ok s.toValue
    | none => .error (.indexError "list index out of range")
  | .vstr s, i =>
    match s.data.get? i with
    | some c => .ok (.vstr (String.mk [c]))
    | none => .error (.indexError "string index out of range")
  | v, _ => .error (.typeError ("object is not subscriptable: " ++ v.pyStr))

/-- The record structure (`self._dStruct`) as used by the embedded
operations: host, database, table, primary key, auto-primary mode
(Python `False | True | str`), ordered field tree, change-audit mode
(Python `False | True | list`), and the revision configuration. -/
inductive AutoPrimary where
  | off
  | increment
  | expr (s : String)
deriving Repr, DecidableEq

/-- Python truthiness of the `auto_primary` struct entry. -/
def AutoPrimary.truthy : AutoPrimary → Bool
  | .off => false
  | .increment => true
  | .expr s => s ≠ ""

/-- `isinstance(auto_primary, str)`. -/
def AutoPrimary.isStr : AutoPrimary → Bool
  | .expr _ => true
  | _ => false

/-- The `changes` struct entry: Python `False | True | list-of-fields`. -/
inductive ChangesOpt where
  | off
  | on
  | required (fields : List String)
deriving Repr, DecidableEq

/-- Python truthiness of the `changes` struct entry (an empty required
list is falsy). -/
def ChangesOpt.truthy : ChangesOpt → Bool
  | .off => false
  | .on => true
  | .required l => !l.isEmpty

/-- `isinstance(changes, list)`. -/
def ChangesOpt.isList : ChangesOpt → Bool
  | .required _ => true
  | _ => false

/-- The required-field names (empty for non-list modes). -/
def ChangesOpt.fieldsOf : ChangesOpt → List String
  | .required l => l
  | _ => []

structure Struct where
  host : String
  db : String
  table : String
  primary : String
  auto_primary : AutoPrimary
  tree : List (String × Node)
  changes : ChangesOpt
  revisions : Bool
  rev_field : String

/-- The value argument of `process_value`: a plain value or a dict of
operator keys. -/
inductive PValue where
  | val (v : Value)
  | dict (d : List (String × Value))
deriving Repr

/-- Record.process_value: compiles one field-to-value lookup into the SQL
predicate fragment (excluding the field name).  Mirrors the source
dispatch: list → `IN (...)`; dict → the fixed `between, lt, gt, lte, gte,
neq, like` check chain, else `ValueError`; scalar → `IS NULL` or
`= <escaped>`. -/
def process_value (cmds : Commands) (struct : Struct) (field : String)
    (value : PValue) : Except PyErr String := do
  let oNode ← match lookupBy struct.tree field with
    | some n => pure n
    | none => Except.error (.keyError field)
  match value with
  | .val (.vlist l) => do
    let lValues ← listItems cmds struct.host oNode l
    let parts ← joinAll lValues
    .ok ("IN (" ++ ",".intercalate parts ++ ")")
  | .dict d =>
    if hasKey d "between" then do
      let op := (lookupBy d "between").getD .vnone
      let lo ← pyIndex op 0
      let hi ← pyIndex op 1
      let sLo ← escape cmds struct.host oNode lo
      let sHi ← escape cmds struct.host oNode hi
      .ok ("BETWEEN " ++ fmtOpt sLo ++ " AND " ++ fmtOpt sHi)
    else if hasKey d "lt" then do
      let s ← escape cmds struct.host oNode ((lookupBy d "lt").getD .vnone)
      let t ← strOrType s
      .ok ("< " ++ t)
    else if hasKey d "gt" then do
      let s ← escape cmds struct.host oNode ((lookupBy d "gt").getD .vnone)
      let t ← strOrType s
      .ok ("> " ++ t)
    else if hasKey d "lte" then do
      let s ← escape cmds struct.host oNode ((lookupBy d "lte").getD .vnone)
      let t ← strOrType s
      .ok ("<= " ++ t)
    else if hasKey d "gte" then do
      let s ← escape cmds struct.host oNode ((lookupBy d "gte").getD .vnone)
      let t ← strOrType s
      .ok (">= " ++ t)
    else if hasKey d "neq" then
      match (lookupBy d "neq").getD .vnone with
      | .vlist l => do
        let lValues ← listItems cmds struct.host oNode l
        let parts ← joinAll lValues
        .ok ("NOT IN (" ++ ",".intercalate parts ++ ")")
      | .vnone => .ok "IS NOT NULL"
      | v => do
        let s ← escape cmds struct.host oNode v
        let t ← strOrType s
        .ok ("!= " ++ t)
    else if hasKey d "like" then do
      let s ← escape cmds struct.host oNode ((lookupBy d "like").getD .vnone)
      let t ← strOrType s
      .ok ("LIKE " ++ t)
    else
      .error (.valueError
        "key must be one of \"between\", \"lt\", \"gt\", \"lte\", \"gte\", or \"neq\"")
  | .val .vnone => .ok "IS NULL"
  | .val v => do
    let s ← escape cmds struct.host oNode v
    let t ← strOrType s
    .ok ("= " ++ t)

/-- Dirty-field tracking (`self._dChanged`): a dict of field names marked
true, or a Python bool meaning the entire record was replaced. -/
inductive Dirty where
  | fields (l : List String)
  | full (b : Bool)
deriving Repr, DecidableEq

/-- Python truthiness of `self._dChanged` (empty dict and `False` are
falsy). -/
def Dirty.truthy : Dirty → Bool
  | .fields l => !l.isEmpty
  | .full b => b

/-- One record instance: live values, dirty-set, and the pre-mutation
snapshot kept for change-audit. -/
structure RecordState where
  record : Assoc
  changed : Dirty
  oldRecord : Option Assoc
deriving Repr

/-- Modelled from the spec: `_revision` is implemented in `Record_Base`,
which is not among the sources here.  Per the spec the revision field is
"a per-record version stamp", `create` makes the first one and `save`
advances the in-memory revision before comparing.  The stamp generator is
abstract: `initRev` is the initial stamp, `nextRev` the advanced stamp,
and the call itself always succeeds (returns a truthy value). -/
structure RevisionModel where
  initRev : Value
  nextRev : Value → Value

/-- The `conflict` argument: a string or a list of fields to update. -/
inductive Conflict where
  | str (s : String)
  | list (l : List String)
deriving Repr, DecidableEq

/-- The `changes` argument: Python `None`, `False`, or a dict. -/
inductive ChangesArg where
  | noneArg
  | falseArg
  | dict (a : Assoc)
deriving Repr

/-- `isinstance(changes, dict)`. -/
def ChangesArg.isDict : ChangesArg → Bool
  | .dict _ => true
  | _ => false

/-- `changes != False` (the guard in `save`). -/
def ChangesArg.neFalse : ChangesArg → Bool
  | .falseArg => false
  | _ => true

/-- The outcome of one record operation: the trace of commands sent to
the Command Executor and the Python result (state included on normal
return). -/
structure OpResult (α : Type) where
  trace : List Cmd
  result : Except PyErr α
deriving Repr

/-- Values inside the JSON payload of a change-audit entry. -/
inductive JVal where
  | jnull
  | jstr (s : String)
  | jv (v : Value)
  | jrec (a : Assoc)
deriving Repr

/-- JSON encoding of an audit payload value. -/
def JVal.json : JVal → String
  | .jnull => "null"
  | .jstr s => "\"" ++ s ++ "\""
  | .jv v => v.json
  | .jrec a =>
    "\x7b" ++ ", ".intercalate
      (a.map (fun p => "\"" ++ p.1 ++ "\": " ++ p.2.json)) ++ "\x7d"

/-- JSON encoding of the whole audit payload dict. -/
def jsonItems (d : List (String × JVal)) : String :=
  "\x7b" ++ ", ".intercalate
    (d.map (fun p => "\"" ++ p.1 ++ "\": " ++ p.2.json)) ++ "\x7d"

/-- `for k in struct.changes: dChanges[k] = changes[k]` — merge the
caller-supplied required audit fields (KeyError on a missing one). -/
def addRequired (a : Assoc) : List String → List (String × JVal) →
    Except PyErr (List (String × JVal))
  | [], d => .ok d
  | k :: rest, d =>
    match lookupBy a k with
    | some v => addRequired a rest (aset d k (.jv v))
    | none => .error (.keyError k)

/-- The whole required-fields step of the change-audit block, as it
appears identically in `create`, `save` and `delete`: when the struct
requires fields, a non-dict `changes` argument raises
`ValueError(changes)`. -/
def mergeChanges (cfg : ChangesOpt) (changes : ChangesArg)
    (base : List (String × JVal)) : Except PyErr (List (String × JVal)) :=
  if cfg.isList then
    match changes with
    | .dict a => addRequired a cfg.fieldsOf base
    | _ => .error (.valueError "changes")
  else .ok base

/-- The change-audit INSERT into `<table>_changes`, shared verbatim by
`create`, `save` and `delete`: primary key escaped, `CURRENT_TIMESTAMP`,
and the JSON payload escaped through the Command Executor. -/
def audit_insert (cmds : Commands) (struct : Struct) (record : Assoc)
    (items : List (String × JVal)) : Except PyErr Cmd := do
  let node ← match lookupBy struct.tree struct.primary with
    | some n => pure n
    | none => Except.error (.keyError struct.primary)
  let pkv ← match lookupBy record struct.primary with
    | some v => pure v
    | none => Except.error (.keyError struct.primary)
  let pkEsc ← escape cmds struct.host node pkv
  .ok (.execute struct.host ("INSERT INTO `" ++ struct.db ++ "`.`" ++
    struct.table ++ "_changes` (`" ++ struct.primary ++
    "`, `created`, `items`) VALUES(" ++ fmtOpt pkEsc ++
    ", CURRENT_TIMESTAMP, \x27" ++
    cmds.escapeR struct.host (jsonItems items) ++ "\x27)"))

/-- `auto_primary` as the SQL expression string (only meaningful for the
string form). -/
def AutoPrimary.exprOf : AutoPrimary → String
  | .expr s => s
  | _ => ""

/-- The column/value lists built by `create` from the field tree (source
lines 1041-1069): the auto primary becomes `@_AUTO_PRIMARY` when
generated by expression, other absent fields are skipped, `None` values
become `NULL`, the rest are escaped. -/
def create_columns (cmds : Commands) (struct : Struct) (record : Assoc) :
    List (String × Node) → Except PyErr (List String × List (Option String))
  | [] => .ok ([], [])
  | (f, node) :: rest =>
    if f == struct.primary && struct.auto_primary.truthy && !(hasKey record f) then
      if struct.auto_primary.isStr then do
        let (fs, vs) ← create_columns cmds struct record rest
        .ok (("`" ++ f ++ "`") :: fs, some "@_AUTO_PRIMARY" :: vs)
      else
        create_columns cmds struct record rest
    else if hasKey record f then do
      let v := (lookupBy record f).getD .vnone
      let e ← if v == Value.vnone then pure (some "NULL")
              else escape cmds struct.host node v
      let (fs, vs) ← create_columns cmds struct record rest
      .ok (("`" ++ f ++ "`") :: fs, e :: vs)
    else
      create_columns cmds struct record rest

/-- The `ON DUPLICATE KEY UPDATE` clause of `create`. -/
def dupUpdate (cols : List String) : String :=
  "ON DUPLICATE KEY UPDATE " ++
    ",\n".intercalate (cols.map (fun s => s ++ " = VALUES(" ++ s ++ ")"))

/-- The INSERT statement of `create` (source lines 1071-1105). -/
def create_sql (struct : Struct) (conflict : Conflict)
    (fields : List String) (vals : List String) : String :=
  let sUpdate :=
    match conflict with
    | .str s => if s == "replace" then dupUpdate fields else ""
    | .list l => dupUpdate l
  "INSERT " ++ (if conflict == Conflict.str "ignore" then "IGNORE " else "") ++
  "INTO `" ++ struct.db ++ "`.`" ++ struct.table ++ "` (" ++
  ",".intercalate fields ++ ")\n VALUES (" ++ ",".intercalate vals ++ ")\n" ++
  sUpdate

/-- Record.create, phase 1 (source lines 1032-1144): validate `conflict`,
make the first revision when configured, build and execute the INSERT
(with the `@_AUTO_PRIMARY` session-variable pattern for expression-
generated keys), and clear the dirty-set. -/
def create_phase1 (cmds : Commands) (rev : RevisionModel) (struct : Struct)
    (st : RecordState) (conflict : Conflict) :
    OpResult (Option Value × RecordState) :=
  if (match conflict with
      | .str s => !(["error", "ignore", "replace"].contains s)
      | .list _ => false) then
    ⟨[], .error (.valueError "conflict")⟩
  else
    let record0 :=
      if struct.revisions then aset st.record struct.rev_field rev.initRev
      else st.record
    match create_columns cmds struct record0 struct.tree with
    | .error e => ⟨[], .error e⟩
    | .ok (fields, vals0) =>
      match joinAll vals0 with
      | .error e => ⟨[], .error e⟩
      | .ok vals =>
        let sSQL := create_sql struct conflict fields vals
        if struct.auto_primary.truthy then
          if struct.auto_primary.isStr then
            let pk := cmds.selectR struct.host "SELECT @_AUTO_PRIMARY"
            ⟨[.execute struct.host
                ("SET @_AUTO_PRIMARY = " ++ struct.auto_primary.exprOf),
              .execute struct.host sSQL,
              .selectCell struct.host "SELECT @_AUTO_PRIMARY"],
             .ok (some pk,
               { record := aset record0 struct.primary pk,
                 changed := .fields [], oldRecord := st.oldRecord })⟩
          else
            let pk := cmds.insertR struct.host sSQL
            ⟨[.insert struct.host sSQL],
             .ok (some pk,
               { record := aset record0 struct.primary pk,
                 changed := .fields [], oldRecord := st.oldRecord })⟩
        else
          let r := cmds.executeR struct.host sSQL
          ⟨[.execute struct.host sSQL],
           .ok ((if r == 0 then none else some (.vbool true)),
             { record := record0, changed := .fields [],
               oldRecord := st.oldRecord })⟩

/-- Record.create (source lines 1017-1187): phase 1, then — only when the
insert went through and change-audit is on — the audit block, whose
required-fields check can raise `ValueError(changes)` after the INSERT
has already been executed. -/
def create (cmds : Commands) (rev : RevisionModel) (struct : Struct)
    (st : RecordState) (conflict : Conflict) (changes : ChangesArg) :
    OpResult (Option Value × RecordState) :=
  let p := create_phase1 cmds rev struct st conflict
  match p.result with
  | .error e => ⟨p.trace, .error e⟩
  | .ok (mRet, st1) =>
    if mRet.isSome && struct.changes.truthy then
      match mergeChanges struct.changes changes
          [("old", JVal.jnull), ("new", JVal.jstr "inserted")] with
      | .error e => ⟨p.trace, .error e⟩
      | .ok items =>
        match audit_insert cmds struct st1.record items with
        | .error e => ⟨p.trace, .error e⟩
        | .ok c => ⟨p.trace ++ [c], .ok (mRet, st1)⟩
    else
      ⟨p.trace, .ok (mRet, st1)⟩

/-- Record.delete (source lines 1297-1377): missing primary key raises
`KeyError`; any affected-row count other than exactly 1 returns `False`;
on success the audit entry (old = full record, new = None) is written
when configured, and the primary key is stripped from the record. -/
def delete (cmds : Commands) (struct : Struct) (st : RecordState)
    (changes : ChangesArg) : OpResult (Bool × RecordState) :=
  if !(hasKey st.record struct.primary) then
    ⟨[], .error (.keyError struct.primary)⟩
  else
    match process_value cmds struct struct.primary
        (.val ((lookupBy st.record struct.primary).getD .vnone)) with
    | .error e => ⟨[], .error e⟩
    | .ok frag =>
      let sSQL := "DELETE FROM `" ++ struct.db ++ "`.`" ++ struct.table ++
        "` WHERE `" ++ struct.primary ++ "` " ++ frag
      let iRet := cmds.executeR struct.host sSQL
      if iRet != 1 then
        ⟨[.execute struct.host sSQL], .ok (false, st)⟩
      else if struct.changes.truthy then
        match mergeChanges struct.changes changes
            [("old", JVal.jrec st.record), ("new", JVal.jnull)] with
        | .error e => ⟨[.execute struct.host sSQL], .error e⟩
        | .ok items =>
          match audit_insert cmds struct st.record items with
          | .error e => ⟨[.execute struct.host sSQL], .error e⟩
          | .ok c =>
            ⟨[.execute struct.host sSQL, c],
             .ok (true, { st with record := adel st.record struct.primary })⟩
      else
        ⟨[.execute struct.host sSQL],
         .ok (true, { st with record := adel st.record struct.primary })⟩

/-- Modelled from the spec: `generate_changes` is implemented in
`Record_Base`, which is not among the sources here.  Per the spec, `save`
"diffs the pre-mutation snapshot against the current state field-by-field"
and writes `{old: <diff-old>, new: <diff-new>}`. -/
def generate_changes (old : Option Assoc) (current : Assoc) :
    List (String × JVal) :=
  let oldA := old.getD []
  let diff := current.filter
    (fun p => !(((lookupBy oldA p.1).getD .vnone).pyEq p.2))
  [("old", JVal.jrec (oldA.filter (fun p => hasKey diff p.1))),
   ("new", JVal.jrec diff)]

/-- The dict of values `save` writes (source lines 2222-2233): replace
mode takes every tree key but the primary, where the Python
`k in record and record[k] or None` mapping falsy values to `None`;
update mode takes exactly the dirty fields (KeyError when a marked field
is missing from the record). -/
def save_changed_values (record : Assoc) : List String →
    Except PyErr (List (String × Value))
  | [] => .ok []
  | k :: rest =>
    match lookupBy record k with
    | some v => do
      let others ← save_changed_values record rest
      .ok ((k, v) :: others)
    | none => .error (.keyError k)

def save_values (struct : Struct) (st : RecordState) (replace : Bool) :
    Except PyErr (List (String × Value)) :=
  if replace || (match st.changed with | .full b => b | .fields _ => false) then
    .ok (((struct.tree.map Prod.fst).filter (fun k => k ≠ struct.primary)).map
      (fun k => (k,
        match lookupBy st.record k with
        | some v => if v.truthy then v else .vnone
        | none => .vnone)))
  else
    match st.changed with
    | .fields l => save_changed_values st.record l
    | .full _ => .ok []

/-- The `field = value` fragments of the UPDATE (source lines 2235-2248):
the auto primary is skipped, `None` renders as `NULL`, everything else is
escaped (with Python `%s` rendering a fallen-through escape as `None`). -/
def save_pairs (cmds : Commands) (struct : Struct) :
    List (String × Value) → Except PyErr (List String)
  | [] => .ok []
  | (f, v) :: rest =>
    if f != struct.primary || !struct.auto_primary.truthy then do
      let entry ←
        if v == Value.vnone then pure ("`" ++ f ++ "` = NULL")
        else do
          let node ← match lookupBy struct.tree f with
            | some n => pure n
            | none => Except.error (PyErr.keyError f)
          let e ← escape cmds struct.host node v
          pure ("`" ++ f ++ "` = " ++ fmtOpt e)
      let others ← save_pairs cmds struct rest
      .ok (entry :: others)
    else
      save_pairs cmds struct rest

/-- Escape of the primary-key value for a WHERE clause (shared by the
revision SELECT and the UPDATE of `save`). -/
def primary_where (cmds : Commands) (struct : Struct) (record : Assoc) :
    Except PyErr String := do
  let node ← match lookupBy struct.tree struct.primary with
    | some n => pure n
    | none => Except.error (PyErr.keyError struct.primary)
  let pkv ← match lookupBy record struct.primary with
    | some v => pure v
    | none => Except.error (PyErr.keyError struct.primary)
  let e ← escape cmds struct.host node pkv
  .ok (fmtOpt e)

/-- The UPDATE statement of `save` (source lines 2250-2262). -/
def save_sql (cmds : Commands) (struct : Struct) (st : RecordState)
    (replace : Bool) : Except PyErr String := do
  let dValues ← save_values struct st replace
  let lValues ← save_pairs cmds struct dValues
  let w ← primary_where cmds struct st.record
  .ok ("UPDATE `" ++ struct.db ++ "`.`" ++ struct.table ++ "` SET " ++
    ", ".intercalate lValues ++ " WHERE `" ++ struct.primary ++ "` = " ++ w)

/-- The revision SELECT of `save` (source lines 2196-2207). -/
def save_revision_sql (cmds : Commands) (struct : Struct) (record : Assoc) :
    Except PyErr String := do
  let w ← primary_where cmds struct record
  .ok ("SELECT `" ++ struct.rev_field ++ "` FROM `" ++ struct.db ++ "`.`" ++
    struct.table ++ "` WHERE `" ++ struct.primary ++ "` = " ++ w)

/-- Record.save, continuation after the revision block (source lines
2222-2318): build and run the UPDATE (any affected-row count other than 1
returns `False`), then the change-audit insert when configured and not
suppressed by `changes=False`, then clear the dirty-set. -/
def save_main (cmds : Commands) (struct : Struct) (st : RecordState)
    (replace : Bool) (changes : ChangesArg) (trace0 : List Cmd) :
    OpResult (Bool × RecordState) :=
  match save_sql cmds struct st replace with
  | .error e => ⟨trace0, .error e⟩
  | .ok sSQL =>
    let iRes := cmds.executeR struct.host sSQL
    let trace1 := trace0 ++ [.execute struct.host sSQL]
    if iRes != 1 then ⟨trace1, .ok (false, st)⟩
    else if struct.changes.truthy && changes.neFalse then
      match mergeChanges struct.changes changes
          (generate_changes st.oldRecord st.record) with
      | .error e => ⟨trace1, .error e⟩
      | .ok items =>
        match audit_insert cmds struct st.record items with
        | .error e => ⟨trace1, .error e⟩
        | .ok c =>
          ⟨trace1 ++ [c],
           .ok (true, { record := st.record, changed := .fields [],
                        oldRecord := none })⟩
    else
      ⟨trace1, .ok (true, { st with changed := .fields [] })⟩

/-- Record.save (source lines 2163-2318): empty dirty-set returns `False`
with no SQL; missing primary key raises `KeyError`; with revisions
configured the persisted revision is read and compared against the stamp
held before the save, raising `RevisionException` on a mismatch
(`_revision` itself is spec-modelled through `RevisionModel`). -/
def save (cmds : Commands) (rev : RevisionModel) (struct : Struct)
    (st : RecordState) (replace : Bool) (changes : ChangesArg) :
    OpResult (Bool × RecordState) :=
  if !st.changed.truthy then ⟨[], .ok (false, st)⟩
  else if !(hasKey st.record struct.primary) then
    ⟨[], .error (.keyError struct.primary)⟩
  else if struct.revisions then
    match lookupBy st.record struct.rev_field with
    | none => ⟨[], .error (.keyError struct.rev_field)⟩
    | some sRevCurr =>
      let record1 := aset st.record struct.rev_field (rev.nextRev sRevCurr)
      match save_revision_sql cmds struct record1 with
      | .error e => ⟨[], .error e⟩
      | .ok sSQL =>
        let sRev := cmds.selectR struct.host sSQL
        if !sRev.truthy then
          ⟨[.selectCell struct.host sSQL], .ok (false, { st with record := record1 })⟩
        else if !(sRev.pyEq sRevCurr) then
          ⟨[.selectCell struct.host sSQL],
           .error (.revisionException ((lookupBy record1 struct.primary).getD .vnone))⟩
        else
          save_main cmds struct { st with record := record1 } replace changes
            [.selectCell struct.host sSQL]
  else
    save_main cmds struct st replace changes []

/-! Sample fixtures used to instantiate the theorems below. -/

/-- A plain integer schema node. -/
def intNode : Node := { className := "Node", type_ := "int" }

/-- A plain string schema node. -/
def strNode : Node := { className := "Node", type_ := "string" }

/-- A plain boolean schema node. -/
def boolNode : Node := { className := "Node", type_ := "bool" }

/-- A node of an unknown FormatOC class. -/
def weirdNode : Node := { className := "Weird", type_ := "x" }

/-- A structured node without the json storage flag. -/
def parentNode : Node := { className := "Parent", type_ := "" }

/-- A sample Command Executor oracle: pass-through string escaping, every
statement affecting one row, insert ids and selected cells fixed. -/
def sampleCmds : Commands :=
  { escapeR := fun _ s => s, executeR := fun _ _ => 1,
    insertR := fun _ _ => .vint 7, selectR := fun _ _ => .vstr "r1" }

/-- Like `sampleCmds` but every execute affects zero rows. -/
def zeroCmds : Commands := { sampleCmds with executeR := fun _ _ => 0 }

/-- A sample revision model. -/
def sampleRev : RevisionModel := { initRev := .vstr "r1", nextRev := fun _ => .vstr "r2" }

/-- A sample struct: two fields, no auto primary, no audit, no revisions. -/
def sampleStruct : Struct :=
  { host := "h", db := "d", table := "t", primary := "id",
    auto_primary := .off,
    tree := [("id", intNode), ("name", strNode)],
    changes := .off, revisions := false, rev_field := "rev" }

/-- `sampleStruct` with change-audit requiring the field `by`. -/
def auditStruct : Struct := { sampleStruct with changes := .required ["by"] }

/-- `sampleStruct` with a revision field. -/
def revStruct : Struct :=
  { sampleStruct with
    revisions := true
    rev_field := "rev"
    tree := [("id", intNode), ("name", strNode), ("rev", strNode)] }

/-- A sample fully-dirty record holding id 3 and a name. -/
def sampleSt : RecordState :=
  { record := [("id", .vint 3), ("name", .vstr "bob")],
    changed := .full true, oldRecord := none }

/-- A sample record for `revStruct` with one dirty field and revision r0. -/
def revSt : RecordState :=
  { record := [("id", .vint 3), ("name", .vstr "bob"), ("rev", .vstr "r0")],
    changed := .fields ["name"], oldRecord := none }

/-- The compilation of one recognized operator key of the condition
compiler, branch for branch as in the source; written per key so the
fixed dispatch order can be stated the way the spec words it. -/
def op_compile (cmds : Commands) (host : String) (node : Node)
    (d : List (String × Value)) : String → Except PyErr String
  | "between" => do
    let op := (lookupBy d "between").getD .vnone
    let lo ← pyIndex op 0
    let hi ← pyIndex op 1
    let sLo ← escape cmds host node lo
    let sHi ← escape cmds host node hi
    .ok ("BETWEEN " ++ fmtOpt sLo ++ " AND " ++ fmtOpt sHi)
  | "lt" => do
    let s ← escape cmds host node ((lookupBy d "lt").getD .vnone)
    let t ← strOrType s
    .ok ("< " ++ t)
  | "gt" => do
    let s ← escape cmds host node ((lookupBy d "gt").getD .vnone)
    let t ← strOrType s
    .ok ("> " ++ t)
  | "lte" => do
    let s ← escape cmds host node ((lookupBy d "lte").getD .vnone)
    let t ← strOrType s
    .ok ("<= " ++ t)
  | "gte" => do
    let s ← escape cmds host node ((lookupBy d "gte").getD .vnone)
    let t ← strOrType s
    .ok (">= " ++ t)
  | "neq" =>
    match (lookupBy d "neq").getD .vnone with
    | .vlist l => do
      let lValues ← listItems cmds host node l
      let parts ← joinAll lValues
      .ok ("NOT IN (" ++ ",".intercalate parts ++ ")")
    | .vnone => .ok "IS NOT NULL"
    | v => do
      let s ← escape cmds host node v
      let t ← strOrType s
      .ok ("!= " ++ t)
  | "like" => do
    let s ← escape cmds host node ((lookupBy d "like").getD .vnone)
    let t ← strOrType s
    .ok ("LIKE " ++ t)
  | _ => .error (.valueError
      "key must be one of \"between\", \"lt\", \"gt\", \"lte\", \"gte\", or \"neq\"")

/-- The fixed operator check order the spec documents. -/
def op_order : List String := ["between", "lt", "gt", "lte", "gte", "neq", "like"]

/-- Spec-side dict dispatch: the first key present, in the fixed order,
wins; a dict with no recognized key raises `ValueError`. -/
def process_dict_spec (cmds : Commands) (host : String) (node : Node)
    (d : List (String × Value)) : Except PyErr String :=
  match op_order.find? (fun k => hasKey d k) with
  | some k => op_compile cmds host node d k
  | none => .error (.valueError
      "key must be one of \"between\", \"lt\", \"gt\", \"lte\", \"gte\", or \"neq\"")

/-- The pointwise relation tying a list-operand member to its compiled
rendering: a `None` member renders as the literal `NULL` keyword (it is
a value-list member, not `IS NULL`), any other member is escaped per the
field type. -/
def MemberRel (cmds : Commands) (host : String) (node : Node)
    (i : Scalar) (s : String) : Prop :=
  (i = Scalar.snone ∧ s = "NULL") ∨
  (i ≠ Scalar.snone ∧ escape cmds host node i.toValue = .ok (some s))

/-- Deleting a key really removes it from the association list. -/
theorem lookupBy_adel {α : Type} (d : List (String × α)) (k : String) :
    lookupBy (adel d k) k = none := by
  induction d with
  | nil => rfl
  | cons p rest ih =>
    by_cases h : p.1 = k
    · simpa [adel, h] using (by simpa [adel] using ih)
    · simp [adel, lookupBy, h] at ih ⊢
      simpa [h] using ih

/-- `hasKey` after `adel`. -/
theorem hasKey_adel {α : Type} (d : List (String × α)) (k : String) :
    hasKey (adel d k) k = false := by
  simp [hasKey, lookupBy_adel]

/-- C7.  A `save` call on a record whose dirty-set is empty returns
`False` and sends no SQL statement whatsoever to the Command Executor:
the whole operation is the no-op `⟨[], ok (false, st)⟩`. -/
theorem save_empty_dirty_no_sql (cmds : Commands) (rev : RevisionModel)
    (struct : Struct) (st : RecordState) (replace : Bool)
    (changes : ChangesArg) (h : st.changed.truthy = false) :
    save cmds rev struct st replace changes = ⟨[], .ok (false, st)⟩ := by
  unfold save
  simp [h]

/-- Witness for C7 at a concrete empty-dirty record. -/
theorem save_empty_dirty_no_sql_witness :
    save sampleCmds sampleRev sampleStruct
      { record := [("id", .vint 3)], changed := .fields [], oldRecord := none }
      false .noneArg = ⟨[], .ok (false,
        { record := [("id", .vint 3)], changed := .fields [], oldRecord := none })⟩ :=
  save_empty_dirty_no_sql sampleCmds sampleRev sampleStruct
    { record := [("id", .vint 3)], changed := .fields [], oldRecord := none }
    false .noneArg (by decide)

/-- C10.  `escape` maps `None` to the SQL `NULL` literal before any
class/type dispatch: it holds for every node, including node classes
whose non-`None` values raise a configuration `TypeError` (an unknown
class, and a structured node without the json flag). -/
theorem escape_none_is_null (cmds : Commands) (host : String) (node : Node) :
    escape cmds host node .vnone = .ok (some "NULL") ∧
    escape sampleCmds "h" weirdNode (.vint 1) =
      .error (.typeError "Record_MySQL can not process FormatOC Weird nodes") ∧
    escape sampleCmds "h" weirdNode .vnone = .ok (some "NULL") ∧
    escape sampleCmds "h" parentNode (.vint 1) =
      .error (.typeError
        "Record_MySQL can not process FormatOC Parent nodes without the json flag set") ∧
    escape sampleCmds "h" parentNode .vnone = .ok (some "NULL") :=
  ⟨rfl, rfl, rfl, rfl, rfl⟩

/-- C3 (counterexample).  The claim says every value other than the
recognized booleans/ints/strings maps to the string `0`; in fact for the
integer 2 the `bool` branch of `escape` falls through both inner cases
and the Python function returns `None` (no string at all). -/
theorem escape_bool_other_counterexample :
    escape sampleCmds "h" boolNode (.vint 2) = .ok none ∧
    escape sampleCmds "h" boolNode (.vint 2) ≠ .ok (some "0") :=
  ⟨rfl, by intro h; simp [escape, boolNode] at h⟩

/-- C3 (amended).  For a `bool` field: booleans and the integers 0/1 map
to `0`/`1`; strings map to `1` exactly when in the fixed truthy list and
to `0` otherwise (no error); but any other value (an integer other than
0/1, a list, ...) makes `escape` return Python `None` — not `0` — still
without raising. -/
theorem escape_bool_amended (cmds : Commands) (host : String) (node : Node)
    (hclass : node.className = "Node") (htype : node.type_ = "bool") :
    (∀ b : Bool, escape cmds host node (.vbool b) = .ok (some (if b then "1" else "0"))) ∧
    escape cmds host node (.vint 0) = .ok (some "0") ∧
    escape cmds host node (.vint 1) = .ok (some "1") ∧
    (∀ s : String, escape cmds host node (.vstr s) =
      .ok (some (if ["true", "True", "TRUE", "t", "T", "1"].contains s
        then "1" else "0"))) ∧
    (∀ n : Int, n ≠ 0 → n ≠ 1 → escape cmds host node (.vint n) = .ok none) ∧
    (∀ l : List Scalar, escape cmds host node (.vlist l) = .ok none) := by
  refine ⟨fun b => ?_, ?_, ?_, fun s => ?_, fun n hn0 hn1 => ?_, fun l => ?_⟩
  · simp [escape, hclass, htype]
  · simp [escape, hclass, htype]
  · simp [escape, hclass, htype]
  · simp [escape, hclass, htype]
  · simp [escape, hclass, htype, hn0, hn1]
  · simp [escape, hclass, htype]

/-- Witness for C3 (amended) at concrete inputs. -/
theorem escape_bool_amended_witness :
    escape sampleCmds "h" boolNode (.vbool true) = .ok (some "1") ∧
    escape sampleCmds "h" boolNode (.vstr "TRUE") = .ok (some "1") ∧
    escape sampleCmds "h" boolNode (.vstr "yes") = .ok (some "0") ∧
    escape sampleCmds "h" boolNode (.vint 2) = .ok none ∧
    escape sampleCmds "h" boolNode (.vlist []) = .ok none := by
  have h := escape_bool_amended sampleCmds "h" boolNode rfl rfl
  exact ⟨h.1 true, by simpa using h.2.2.2.1 "TRUE", by simpa using h.2.2.2.1 "yes",
    h.2.2.2.2.1 2 (by decide) (by decide), h.2.2.2.2.2 []⟩

/-- The successful phase 1 of `create` always has a non-empty trace (the
INSERT reached the Command Executor), or it failed outright. -/
theorem create_phase1_shape (cmds : Commands) (rev : RevisionModel)
    (struct : Struct) (st : RecordState) (conflict : Conflict) :
    (create_phase1 cmds rev struct st conflict).trace ≠ [] ∨
    ∃ e, (create_phase1 cmds rev struct st conflict).result = .error e := by
  simp only [create_phase1]
  repeat' split
  all_goals first
    | exact Or.inr ⟨_, rfl⟩
    | exact Or.inl (by simp)

/-- C1 (counterexample).  With change-audit requiring fields and
`changes=None`, `create` does raise the missing-required-audit-fields
error, but only after the INSERT was executed: the trace already holds
the INSERT when `ValueError(changes)` comes out, refuting "no INSERT
reaches the Command Executor before the error". -/
theorem create_missing_audit_counterexample :
    (create sampleCmds sampleRev auditStruct sampleSt (.str "error") .noneArg).result
      = .error (.valueError "changes") ∧
    (create sampleCmds sampleRev auditStruct sampleSt (.str "error") .noneArg).trace
      = [.execute "h" ("INSERT INTO `d`.`t` (`id`,`name`)\n VALUES (3,\x27bob\x27)\n")] :=
  ⟨rfl, rfl⟩

/-- C1 (amended).  When change-audit requires fields and none are
supplied (no dict passed), `create` raises `ValueError(changes)` — but
only after phase 1 ran: the commands issued are exactly those of phase 1
(which are never empty on success, i.e. the INSERT has already reached
the Command Executor), and only the audit INSERT is prevented. -/
theorem create_missing_audit_after_insert (cmds : Commands) (rev : RevisionModel)
    (struct : Struct) (st : RecordState) (conflict : Conflict)
    (changes : ChangesArg) (mRet : Option Value) (st1 : RecordState)
    (hlist : struct.changes.isList = true)
    (htruthy : struct.changes.truthy = true)
    (hdict : changes.isDict = false)
    (hphase : (create_phase1 cmds rev struct st conflict).result = .ok (mRet, st1))
    (hret : mRet.isSome = true) :
    (create cmds rev struct st conflict changes).result = .error (.valueError "changes") ∧
    (create cmds rev struct st conflict changes).trace
      = (create_phase1 cmds rev struct st conflict).trace ∧
    (create_phase1 cmds rev struct st conflict).trace ≠ [] := by
  have htr : (create_phase1 cmds rev struct st conflict).trace ≠ [] := by
    rcases create_phase1_shape cmds rev struct st conflict with h | ⟨e, he⟩
    · exact h
    · rw [hphase] at he; simp at he
  have hmerge : ∀ base, mergeChanges struct.changes changes base
      = .error (.valueError "changes") := by
    intro base
    cases changes with
    | dict a => simp [ChangesArg.isDict] at hdict
    | noneArg => simp [mergeChanges, hlist]
    | falseArg => simp [mergeChanges, hlist]
  constructor
  · simp only [create]
    rw [hphase]
    simp [hret, htruthy, hmerge]
  · constructor
    · simp only [create]
      rw [hphase]
      simp [hret, htruthy, hmerge]
    · exact htr

/-- Witness for C1 (amended) at the concrete audit-requiring struct. -/
theorem create_missing_audit_after_insert_witness :
    (create sampleCmds sampleRev auditStruct sampleSt (.str "error") .noneArg).result
      = .error (.valueError "changes") ∧
    (create sampleCmds sampleRev auditStruct sampleSt (.str "error") .noneArg).trace
      = (create_phase1 sampleCmds sampleRev auditStruct sampleSt (.str "error")).trace ∧
    (create_phase1 sampleCmds sampleRev auditStruct sampleSt (.str "error")).trace ≠ [] :=
  create_missing_audit_after_insert sampleCmds sampleRev auditStruct sampleSt
    (.str "error") .noneArg (some (.vbool true))
    { record := [("id", .vint 3), ("name", .vstr "bob")],
      changed := .fields [], oldRecord := none }
    rfl rfl rfl rfl rfl

/-- C4.  With a revision field declared and a non-empty dirty-set, `save`
advances the in-memory revision (`_revision` is spec-modelled through
`RevisionModel`), reads the persisted revision with one SELECT, and —
when the persisted stamp is present but differs from the stamp the
record held before the save — raises `RevisionException` and issues no
UPDATE: the trace holds only the revision SELECT. -/
theorem save_revision_conflict (cmds : Commands) (rev : RevisionModel)
    (struct : Struct) (st : RecordState) (replace : Bool) (changes : ChangesArg)
    (r0 : Value) (sql : String)
    (hdirty : st.changed.truthy = true)
    (hpk : hasKey st.record struct.primary = true)
    (hrev : struct.revisions = true)
    (hr0 : lookupBy st.record struct.rev_field = some r0)
    (hsql : save_revision_sql cmds struct
      (aset st.record struct.rev_field (rev.nextRev r0)) = .ok sql)
    (htruthy : (cmds.selectR struct.host sql).truthy = true)
    (hne : (cmds.selectR struct.host sql).pyEq r0 = false) :
    (save cmds rev struct st replace changes).result
      = .error (.revisionException
          ((lookupBy (aset st.record struct.rev_field (rev.nextRev r0))
            struct.primary).getD .vnone)) ∧
    (save cmds rev struct st replace changes).trace
      = [.selectCell struct.host sql] := by
  constructor <;>
    simp [save, hdirty, hpk, hrev, hr0, hsql, htruthy, hne]

/-- Witness for C4: two loaded copies race; the persisted stamp is `r1`
while this instance still holds `r0`, so `save` raises and only the
SELECT ran. -/
theorem save_revision_conflict_witness :
    (save sampleCmds sampleRev revStruct revSt false .noneArg).result
      = .error (.revisionException (.vint 3)) ∧
    (save sampleCmds sampleRev revStruct revSt false .noneArg).trace
      = [.selectCell "h" "SELECT `rev` FROM `d`.`t` WHERE `id` = 3"] := by
  have h := save_revision_conflict sampleCmds sampleRev revStruct revSt false
    .noneArg (.vstr "r0") "SELECT `rev` FROM `d`.`t` WHERE `id` = 3"
    rfl rfl rfl rfl rfl rfl rfl
  simpa using h

/-- C5.  A persisted record with a non-empty dirty-set: when the UPDATE
of `save` affects zero rows the call returns `False` (no exception), and
when the DELETE of `delete` affects any row count other than exactly one
the call returns `False` (no exception). -/
theorem zero_rows_returns_false (cmds : Commands) (rev : RevisionModel)
    (struct : Struct) (st : RecordState) (replace : Bool) (changes : ChangesArg)
    (sqlU frag : String)
    (hdirty : st.changed.truthy = true)
    (hpk : hasKey st.record struct.primary = true)
    (hnorev : struct.revisions = false)
    (hsql : save_sql cmds struct st replace = .ok sqlU)
    (hzero : cmds.executeR struct.host sqlU = 0)
    (hfrag : process_value cmds struct struct.primary
      (.val ((lookupBy st.record struct.primary).getD .vnone)) = .ok frag)
    (hnot1 : cmds.executeR struct.host
      ("DELETE FROM `" ++ struct.db ++ "`.`" ++ struct.table ++ "` WHERE `" ++
        struct.primary ++ "` " ++ frag) ≠ 1) :
    (save cmds rev struct st replace changes).result = .ok (false, st) ∧
    (delete cmds struct st changes).result = .ok (false, st) := by
  constructor
  · simp [save, save_main, hdirty, hpk, hnorev, hsql, hzero]
  · simp [delete, hpk, hfrag, hnot1]

/-- Witness for C5 with an executor that affects zero rows. -/
theorem zero_rows_returns_false_witness :
    (save zeroCmds sampleRev sampleStruct
      { record := [("id", .vint 3), ("name", .vstr "bob")],
        changed := .fields ["name"], oldRecord := none } false .noneArg).result
      = .ok (false,
        { record := [("id", .vint 3), ("name", .vstr "bob")],
          changed := .fields ["name"], oldRecord := none }) ∧
    (delete zeroCmds sampleStruct
      { record := [("id", .vint 3), ("name", .vstr "bob")],
        changed := .fields ["name"], oldRecord := none } .noneArg).result
      = .ok (false,
        { record := [("id", .vint 3), ("name", .vstr "bob")],
          changed := .fields ["name"], oldRecord := none }) :=
  zero_rows_returns_false zeroCmds sampleRev sampleStruct
    { record := [("id", .vint 3), ("name", .vstr "bob")],
      changed := .fields ["name"], oldRecord := none } false .noneArg
    "UPDATE `d`.`t` SET `name` = \x27bob\x27 WHERE `id` = 3" "= 3"
    rfl rfl rfl rfl rfl rfl (by decide)

/-- C6.  A successful `delete` strips the primary-key value from the
in-memory record; a second `delete` on the resulting instance raises the
missing-primary-key `KeyError`, as does a `save` with a non-empty
dirty-set; and concretely a `create` followed immediately by `delete`
succeeds and leaves the instance in that state. -/
theorem delete_strips_primary (cmds : Commands) (struct : Struct)
    (st st2 : RecordState) (changes changes2 : ChangesArg) (tr : List Cmd)
    (hdel : delete cmds struct st changes = ⟨tr, .ok (true, st2)⟩) :
    hasKey st2.record struct.primary = false ∧
    (delete cmds struct st2 changes2).result = .error (.keyError struct.primary) ∧
    (∀ (cmds2 : Commands) (rev : RevisionModel) (replace : Bool) (ch : ChangesArg),
      st2.changed.truthy = true →
      (save cmds2 rev struct st2 replace ch).result
        = .error (.keyError struct.primary)) ∧
    (create sampleCmds sampleRev sampleStruct sampleSt (.str "error") .noneArg).result
      = .ok (some (.vbool true),
        { record := [("id", .vint 3), ("name", .vstr "bob")],
          changed := .fields [], oldRecord := none }) ∧
    (delete sampleCmds sampleStruct
      { record := [("id", .vint 3), ("name", .vstr "bob")],
        changed := .fields [], oldRecord := none } .noneArg).result
      = .ok (true,
        { record := [("name", .vstr "bob")], changed := .fields [],
          oldRecord := none }) ∧
    (delete sampleCmds sampleStruct
      { record := [("name", .vstr "bob")], changed := .fields [], oldRecord := none }
      .noneArg).result = .error (.keyError "id") := by
  have hrec : st2.record = adel st.record struct.primary := by
    unfold delete at hdel
    repeat' split at hdel
    all_goals (try simp at hdel)
    all_goals (repeat' split at hdel)
    all_goals (try simp at hdel)
    all_goals
      first
      | rw [← hdel.2]
      | rw [← hdel.2.2]
      | simp_all
  have hkey : hasKey st2.record struct.primary = false := by
    rw [hrec]; exact hasKey_adel st.record struct.primary
  refine ⟨hkey, ?_, ?_, rfl, rfl, rfl⟩
  · simp [delete, hkey]
  · intro cmds2 rev replace ch hd
    simp [save, hd, hkey]

/-- Witness for C6: the create-delete-delete chain instantiated. -/
theorem delete_strips_primary_witness :
    hasKey ({ record := [("name", .vstr "bob")], changed := Dirty.fields [],
              oldRecord := none } : RecordState).record sampleStruct.primary
      = false ∧
    (delete sampleCmds sampleStruct
      { record := [("name", .vstr "bob")], changed := .fields [], oldRecord := none }
      .noneArg).result = .error (.keyError sampleStruct.primary) := by
  have h := delete_strips_primary sampleCmds sampleStruct
    { record := [("id", .vint 3), ("name", .vstr "bob")],
      changed := .fields [], oldRecord := none }
    { record := [("name", .vstr "bob")], changed := .fields [], oldRecord := none }
    .noneArg .noneArg
    [.execute "h" "DELETE FROM `d`.`t` WHERE `id` = 3"] (by rfl)
  exact ⟨h.1, h.2.1⟩

/-- C2.  For every mapping, the dict branch of `process_value` honors
exactly the first recognized operator key in the fixed order
`between, lt, gt, lte, gte, neq, like`; in particular a mapping holding
both `between` and `lt` compiles to the BETWEEN fragment only, without
raising. -/
theorem process_value_fixed_order (cmds : Commands) (struct : Struct)
    (field : String) (node : Node) (d : List (String × Value))
    (htree : lookupBy struct.tree field = some node) :
    process_value cmds struct field (.dict d)
      = process_dict_spec cmds struct.host node d ∧
    (hasKey d "between" = true →
      process_value cmds struct field (.dict d)
        = op_compile cmds struct.host node d "between") ∧
    process_value sampleCmds sampleStruct "id"
        (.dict [("between", .vlist [.sint 1, .sint 10]), ("lt", .vint 5)])
      = .ok "BETWEEN 1 AND 10" := by
  have hmain : process_value cmds struct field (.dict d)
      = process_dict_spec cmds struct.host node d := by
    unfold process_value process_dict_spec op_order
    rw [htree]
    by_cases h1 : hasKey d "between" = true <;>
      by_cases h2 : hasKey d "lt" = true <;>
      by_cases h3 : hasKey d "gt" = true <;>
      by_cases h4 : hasKey d "lte" = true <;>
      by_cases h5 : hasKey d "gte" = true <;>
      by_cases h6 : hasKey d "neq" = true <;>
      by_cases h7 : hasKey d "like" = true <;>
      simp [h1, h2, h3, h4, h5, h6, h7, op_compile, List.find?]
  refine ⟨hmain, fun hb => ?_, rfl⟩
  rw [hmain]
  unfold process_dict_spec op_order
  simp [hb, List.find?]

/-- Witness for C2 at the concrete between-plus-lt mapping. -/
theorem process_value_fixed_order_witness :
    process_value sampleCmds sampleStruct "id"
        (.dict [("between", .vlist [.sint 1, .sint 10]), ("lt", .vint 5)])
      = process_dict_spec sampleCmds "h" intNode
          [("between", .vlist [.sint 1, .sint 10]), ("lt", .vint 5)] ∧
    process_value sampleCmds sampleStruct "id"
        (.dict [("between", .vlist [.sint 1, .sint 10]), ("lt", .vint 5)])
      = .ok "BETWEEN 1 AND 10" := by
  have h := process_value_fixed_order sampleCmds sampleStruct "id" intNode
    [("between", .vlist [.sint 1, .sint 10]), ("lt", .vint 5)] rfl
  exact ⟨h.1, h.2.2⟩

/-- Bind of a successful `Except` step. -/
theorem exc_bind_ok {e a b : Type} (x : a) (f : a → Except e b) :
    (Except.ok x : Except e a) >>= f = f x := rfl

/-- The member loop of the list branch compiles exactly the related
renderings, in order. -/
theorem listItems_of_forall2 (cmds : Commands) (host : String) (node : Node)
    {l : List Scalar} {ss : List String}
    (h : List.Forall₂ (MemberRel cmds host node) l ss) :
    listItems cmds host node l = .ok (ss.map some) := by
  induction h with
  | nil => rfl
  | cons hrel hrest ih =>
    rcases hrel with ⟨hi, hs⟩ | ⟨hi, hesc⟩
    · subst hi; subst hs
      simp [listItems, ih, exc_bind_ok]
    · simp [listItems, hi, hesc, ih, exc_bind_ok]

/-- Joining all-strings succeeds with the same list. -/
theorem joinAll_map_some (ss : List String) : joinAll (ss.map some) = .ok ss := by
  induction ss with
  | nil => rfl
  | cons s rest ih => simp [joinAll, strOrType, ih, exc_bind_ok]

/-- C8.  A list operand compiles to `IN (<members comma-joined in the
original order>)`, each `None` member rendering as the unquoted uppercase
`NULL` keyword and every other member escaped per the field type; e.g.
`[1,2,None]` on an integer field gives `IN (1,2,NULL)`. -/
theorem process_value_list_in (cmds : Commands) (struct : Struct)
    (field : String) (node : Node) (l : List Scalar) (ss : List String)
    (htree : lookupBy struct.tree field = some node)
    (hmem : List.Forall₂ (MemberRel cmds struct.host node) l ss) :
    process_value cmds struct field (.val (.vlist l))
      = .ok ("IN (" ++ ",".intercalate ss ++ ")") ∧
    process_value sampleCmds sampleStruct "id"
        (.val (.vlist [.sint 1, .sint 2, .snone])) = .ok "IN (1,2,NULL)" := by
  refine ⟨?_, rfl⟩
  unfold process_value
  rw [htree]
  simp [listItems_of_forall2 cmds struct.host node hmem, joinAll_map_some,
    exc_bind_ok]

/-- Witness for C8 at the concrete list `[1,2,None]`. -/
theorem process_value_list_in_witness :
    process_value sampleCmds sampleStruct "id"
        (.val (.vlist [.sint 1, .sint 2, .snone]))
      = .ok ("IN (" ++ ",".intercalate ["1", "2", "NULL"] ++ ")") :=
  (process_value_list_in sampleCmds sampleStruct "id" intNode
    [.sint 1, .sint 2, .snone] ["1", "2", "NULL"] rfl
    (List.Forall₂.cons (Or.inr ⟨by decide, rfl⟩)
      (List.Forall₂.cons (Or.inr ⟨by decide, rfl⟩)
        (List.Forall₂.cons (Or.inl ⟨rfl, rfl⟩) List.Forall₂.nil)))).1

/-- C9.  `process_value` compiles the scalar `None` to `IS NULL`, the
mapping `neq: None` to `IS NOT NULL`, a non-`None` scalar to
`= <escaped>`, and `neq: <list>` to `NOT IN (...)` with the same
NULL-as-list-member rendering as the IN case. -/
theorem process_value_scalar_forms (cmds : Commands) (struct : Struct)
    (field : String) (node : Node) (v : Value) (s : String)
    (l : List Scalar) (ss : List String)
    (htree : lookupBy struct.tree field = some node)
    (hnl : ∀ l2 : List Scalar, v ≠ .vlist l2)
    (hnn : v ≠ .vnone)
    (hesc : escape cmds struct.host node v = .ok (some s))
    (hmem : List.Forall₂ (MemberRel cmds struct.host node) l ss) :
    process_value cmds struct field (.val .vnone) = .ok "IS NULL" ∧
    process_value cmds struct field (.dict [("neq", .vnone)]) = .ok "IS NOT NULL" ∧
    process_value cmds struct field (.val v) = .ok ("= " ++ s) ∧
    process_value cmds struct field (.dict [("neq", .vlist l)])
      = .ok ("NOT IN (" ++ ",".intercalate ss ++ ")") ∧
    process_value sampleCmds sampleStruct "id" (.val (.vint 5)) = .ok "= 5" ∧
    process_value sampleCmds sampleStruct "id"
        (.dict [("neq", .vlist [.sint 1, .snone])]) = .ok "NOT IN (1,NULL)" := by
  refine ⟨?_, ?_, ?_, ?_, rfl, rfl⟩
  · unfold process_value
    rw [htree]
    rfl
  · unfold process_value
    rw [htree]
    rfl
  · cases v with
    | vlist l2 => exact absurd rfl (hnl l2)
    | vnone => exact absurd rfl hnn
    | vbool b => unfold process_value; rw [htree]; simp [hesc, strOrType, exc_bind_ok]
    | vint n => unfold process_value; rw [htree]; simp [hesc, strOrType, exc_bind_ok]
    | vstr t => unfold process_value; rw [htree]; simp [hesc, strOrType, exc_bind_ok]
    | vlit t => unfold process_value; rw [htree]; simp [hesc, strOrType, exc_bind_ok]
  · unfold process_value
    rw [htree]
    simp [hasKey, lookupBy,
      listItems_of_forall2 cmds struct.host node hmem, joinAll_map_some,
      exc_bind_ok]

/-- Witness for C9 at concrete scalar and list inputs. -/
theorem process_value_scalar_forms_witness :
    process_value sampleCmds sampleStruct "id" (.val .vnone) = .ok "IS NULL" ∧
    process_value sampleCmds sampleStruct "id" (.dict [("neq", .vnone)])
      = .ok "IS NOT NULL" ∧
    process_value sampleCmds sampleStruct "id" (.val (.vint 5)) = .ok ("= " ++ "5") ∧
    process_value sampleCmds sampleStruct "id" (.dict [("neq", .vlist [.sint 1, .snone])])
      = .ok ("NOT IN (" ++ ",".intercalate ["1", "NULL"] ++ ")") := by
  have h := process_value_scalar_forms sampleCmds sampleStruct "id" intNode
    (.vint 5) "5" [.sint 1, .snone] ["1", "NULL"] rfl
    (fun l2 => by simp) (by simp) rfl
    (List.Forall₂.cons (Or.inr ⟨by decide, rfl⟩)
      (List.Forall₂.cons (Or.inl ⟨rfl, rfl⟩) List.Forall₂.nil))
  exact ⟨h.1, h.2.1, h.2.2.1, h.2.2.2.1⟩

end RestOC
